import Mathlib

/-!
Verification of the cell_spinner stepper-motor controller core.

Shallow embedding of the Rust sources:
  * `src/app.rs`          - the global constants;
  * `src/utils/enums.rs`  - `StepMode128`, `Direction`, `StepperState` and the
    3-byte telemetry decoder `impl From<&[u8; 3]> for StepperState`;
  * `src/utils/protocols.rs` - `Rotation`, `Protocol` and the wire encoders
    `Rotation::to_bytes` / `Protocol::bytes_vec_to_send`;
  * `src/utils/structs.rs` - `TimersAndPhases`, `Message`;
  * `src/utils/motor.rs`  - `Motor::{start_motor, stop_motor, import_protocol,
    generate_graph_rotation}`;
  * `src/utils/serial.rs` - the listener thread's per-event dispatch.

Machine integers (`u32`, `u64`, `u8`) are represented as `Nat`; the Rust
fields carry their width as a well-formedness predicate where a theorem
needs it.  Byte buffers are `List Nat`, each element a byte value.
Mutable session state is passed explicitly; `Instant` is an abstract
millisecond timestamp `Nat` supplied as a `now` argument.
-/

/-! ## Constants (src/app.rs) -/

def THREAD_SLEEP : Nat := 10

def MAX_ACCELERATION : Nat := 20000

def MAX_RPM : Nat := 5000

/-- 1 year in milliseconds (src/app.rs line 37). -/
def MAX_DURATION_MS : Nat := 365 * 24 * 60 * 60 * 1000

def MAX_POINTS_GRAPHS : Nat := 250000

def BYTES : Nat := 110

/-! ## Enums (src/utils/enums.rs) -/

inductive StepMode128 where
  | Full
  | M2
  | M4
  | M8
  | M16
  | M32
  | M64
  | M128
deriving DecidableEq, Repr

/-- `StepMode128::to_byte` (enums.rs lines 19-30). -/
def StepMode128.to_byte : StepMode128 → Nat
  | .Full => 0
  | .M2 => 1
  | .M4 => 2
  | .M8 => 3
  | .M16 => 4
  | .M32 => 5
  | .M64 => 6
  | .M128 => 7

/-- `StepMode128::get_multiplier` (enums.rs lines 36-47). -/
def StepMode128.get_multiplier : StepMode128 → Nat
  | .Full => 1
  | .M2 => 2
  | .M4 => 4
  | .M8 => 8
  | .M16 => 16
  | .M32 => 32
  | .M64 => 64
  | .M128 => 128

inductive Direction where
  | Forward
  | Backward
deriving DecidableEq, Repr

/-- `Direction::to_byte` (enums.rs lines 74-79). -/
def Direction.to_byte : Direction → Nat
  | .Forward => 0
  | .Backward => 1

/-- The 17 stepper states of enums.rs lines 91-111; the Rust `#[default]`
is `Finished`. -/
inductive StepperState where
  | CommandReceived
  | Finished
  | EmergencyStop
  | OpenLoad
  | OverCurrent
  | OverHeat
  | OscillationRotation
  | OscillationAgitation
  | StartRotation
  | StartPauseRotation
  | StartPausePreAgitation
  | StartAgitation
  | StartPauseAgitation
  | StartPausePostAgitation
  | StepgenRotationError
  | StepgenAgitationError
  | Invalid
deriving DecidableEq, Repr

instance : Inhabited StepperState := ⟨.Finished⟩

/-- `impl From<&[u8; 3]> for StepperState` (enums.rs lines 113-135): the
3-byte telemetry decoder.  The Rust `match` tries the sixteen literal
patterns in order and falls through to `Invalid`. -/
def StepperState.from_bytes (b1 b2 b3 : Nat) : StepperState :=
  if b1 = 111 ∧ b2 = 107 ∧ b3 = 33 then .CommandReceived
  else if b1 = 102 ∧ b2 = 105 ∧ b3 = 110 then .Finished
  else if b1 = 101 ∧ b2 = 109 ∧ b3 = 114 then .EmergencyStop
  else if b1 = 101 ∧ b2 = 114 ∧ b3 = 49 then .OpenLoad
  else if b1 = 101 ∧ b2 = 114 ∧ b3 = 50 then .OverCurrent
  else if b1 = 101 ∧ b2 = 114 ∧ b3 = 51 then .OverHeat
  else if b1 = 111 ∧ b2 = 115 ∧ b3 = 114 then .OscillationRotation
  else if b1 = 111 ∧ b2 = 115 ∧ b3 = 97 then .OscillationAgitation
  else if b1 = 115 ∧ b2 = 116 ∧ b3 = 114 then .StartRotation
  else if b1 = 115 ∧ b2 = 116 ∧ b3 = 112 then .StartPauseRotation
  else if b1 = 115 ∧ b2 = 116 ∧ b3 = 113 then .StartPausePreAgitation
  else if b1 = 115 ∧ b2 = 116 ∧ b3 = 97 then .StartAgitation
  else if b1 = 115 ∧ b2 = 116 ∧ b3 = 98 then .StartPauseAgitation
  else if b1 = 115 ∧ b2 = 116 ∧ b3 = 99 then .StartPausePostAgitation
  else if b1 = 101 ∧ b2 = 114 ∧ b3 = 112 then .StepgenRotationError
  else if b1 = 101 ∧ b2 = 97 ∧ b3 = 112 then .StepgenAgitationError
  else .Invalid

/-- The sixteen recognized telemetry codes, as byte triples. -/
def recognizedCode (b1 b2 b3 : Nat) : Prop :=
  (b1 = 111 ∧ b2 = 107 ∧ b3 = 33) ∨ (b1 = 102 ∧ b2 = 105 ∧ b3 = 110) ∨
  (b1 = 101 ∧ b2 = 109 ∧ b3 = 114) ∨ (b1 = 101 ∧ b2 = 114 ∧ b3 = 49) ∨
  (b1 = 101 ∧ b2 = 114 ∧ b3 = 50) ∨ (b1 = 101 ∧ b2 = 114 ∧ b3 = 51) ∨
  (b1 = 111 ∧ b2 = 115 ∧ b3 = 114) ∨ (b1 = 111 ∧ b2 = 115 ∧ b3 = 97) ∨
  (b1 = 115 ∧ b2 = 116 ∧ b3 = 114) ∨ (b1 = 115 ∧ b2 = 116 ∧ b3 = 112) ∨
  (b1 = 115 ∧ b2 = 116 ∧ b3 = 113) ∨ (b1 = 115 ∧ b2 = 116 ∧ b3 = 97) ∨
  (b1 = 115 ∧ b2 = 116 ∧ b3 = 98) ∨ (b1 = 115 ∧ b2 = 116 ∧ b3 = 99) ∨
  (b1 = 101 ∧ b2 = 114 ∧ b3 = 112) ∨ (b1 = 101 ∧ b2 = 97 ∧ b3 = 112)

instance (b1 b2 b3 : Nat) : Decidable (recognizedCode b1 b2 b3) := by
  unfold recognizedCode; infer_instance

/-! ## Little-endian serialization helpers

`u32::to_le_bytes` / `u64::to_le_bytes` write the value's base-256 digits
least significant first; `leBytes n w` is that digit list of width `w`. -/

def leBytes : Nat → Nat → List Nat
  | _, 0 => []
  | n, w + 1 => n % 256 :: leBytes (n / 256) w

def fromLeBytes : List Nat → Nat
  | [] => 0
  | b :: bs => b + 256 * fromLeBytes bs

theorem leBytes_length (n w : Nat) : (leBytes n w).length = w := by
  induction w generalizing n with
  | zero => rfl
  | succ w ih => simp [leBytes, ih]

theorem fromLeBytes_leBytes (n w : Nat) (h : n < 256 ^ w) :
    fromLeBytes (leBytes n w) = n := by
  induction w generalizing n with
  | zero => simp at h; simp [h, leBytes, fromLeBytes]
  | succ w ih =>
      have hdiv : n / 256 < 256 ^ w := by
        rw [Nat.div_lt_iff_lt_mul (by norm_num)]
        calc n < 256 ^ (w + 1) := h
        _ = 256 ^ w * 256 := by ring
      simp only [leBytes, fromLeBytes, ih (n / 256) hdiv]
      omega

/-! ## Rotation and Protocol (src/utils/protocols.rs) -/

/-- `Rotation` (protocols.rs lines 6-15): one axis profile.  `rpm` and
`acceleration` are `u32` in Rust, the remaining numeric fields `u64`. -/
structure Rotation where
  rpm : Nat
  acceleration : Nat
  step_mode : StepMode128
  duration_of_one_direction_cycle_ms : Nat
  steps_for_one_direction_cycle : Nat
  direction : Direction
  pause_before_direction_change_ms : Nat
deriving DecidableEq, Repr

/-- `Rotation::default` (protocols.rs lines 17-29). -/
def Rotation.default : Rotation :=
  { rpm := 1, acceleration := 1, step_mode := .Full,
    duration_of_one_direction_cycle_ms := 0, steps_for_one_direction_cycle := 0,
    direction := .Forward, pause_before_direction_change_ms := 0 }

/-- `Rotation::get_min_duration` (protocols.rs lines 44-46). -/
def Rotation.get_min_duration (r : Rotation) : Nat :=
  r.duration_of_one_direction_cycle_ms + r.pause_before_direction_change_ms

/-- `Rotation::max_rpm` (protocols.rs lines 48-59); motor.rs calls it
`max_rpm_for_stepmode`.  Rust `/` on `u32` is truncating division. -/
def Rotation.max_rpm (r : Rotation) : Nat :=
  match r.step_mode with
  | .Full => MAX_RPM
  | .M2 => MAX_RPM / 2
  | .M4 => MAX_RPM / 4
  | .M8 => MAX_RPM / 8
  | .M16 => MAX_RPM / 16
  | .M32 => MAX_RPM / 32
  | .M64 => MAX_RPM / 64
  | .M128 => MAX_RPM / 128

/-- `Rotation::to_bytes` (protocols.rs lines 87-97): the 34-byte axis
record, fields little-endian in source order. -/
def Rotation.to_bytes (r : Rotation) : List Nat :=
  leBytes r.rpm 4 ++ leBytes r.acceleration 4 ++ [r.step_mode.to_byte] ++
  leBytes r.duration_of_one_direction_cycle_ms 8 ++
  leBytes r.steps_for_one_direction_cycle 8 ++ [r.direction.to_byte] ++
  leBytes r.pause_before_direction_change_ms 8

/-- `Protocol` (protocols.rs lines 100-109).  motor.rs (a later revision of
the same repository) refers to `pause_before_agitation_ms` as
`pause_pre_agitation_ms` and to `pause_after_agitation_ms` as
`pause_post_agitation_ms`; the struct definition in protocols.rs is used. -/
structure Protocol where
  rotation : Rotation
  rotation_duration_ms : Nat
  pause_before_agitation_ms : Nat
  agitation : Rotation
  agitation_duration_ms : Nat
  pause_after_agitation_ms : Nat
  global_duration_ms : Nat
deriving DecidableEq, Repr

/-- `Protocol::default` (derived in protocols.rs line 100). -/
def Protocol.default : Protocol :=
  { rotation := Rotation.default, rotation_duration_ms := 0,
    pause_before_agitation_ms := 0, agitation := Rotation.default,
    agitation_duration_ms := 0, pause_after_agitation_ms := 0,
    global_duration_ms := 0 }

/-- Modelled from the spec: `Protocol::get_duration_without_pause` is called
by motor.rs but its body is not in the repository's files (protocols.rs is an
earlier revision carrying `duration`, which also sums the pauses).  The spec
defines the quantity: `rotation_phase_duration_ms + agitation_phase_duration_ms`
(the "duration without pause"). -/
def Protocol.get_duration_without_pause (p : Protocol) : Nat :=
  p.rotation_duration_ms + p.agitation_duration_ms

/-- `Protocol::bytes_vec_to_send` (protocols.rs lines 142-154): the 110-byte
command buffer `'a' | rotation | rotation_duration | pause_before_agitation |
agitation | agitation_duration | pause_after_agitation | global_duration | 'z'`.
`97 = 'a'`, `122 = 'z'`. -/
def Protocol.bytes_vec_to_send (p : Protocol) : List Nat :=
  [97] ++ p.rotation.to_bytes ++ leBytes p.rotation_duration_ms 8 ++
  leBytes p.pause_before_agitation_ms 8 ++ p.agitation.to_bytes ++
  leBytes p.agitation_duration_ms 8 ++ leBytes p.pause_after_agitation_ms 8 ++
  leBytes p.global_duration_ms 8 ++ [122]

/-! ## Buffer segment lemmas -/

/-- `byteSeg bs off len`: bytes `off .. off+len` of a buffer, as Rust slice
indexing `bs[off..off+len]` reads them. -/
def byteSeg (bs : List Nat) (off len : Nat) : List Nat :=
  (bs.drop off).take len

theorem drop_chunk (a b : List Nat) (o n : Nat) (h : a.length + n = o) :
    (a ++ b).drop o = b.drop n := by
  rw [← h, List.drop_append]

theorem Rotation.to_bytes_length (r : Rotation) : r.to_bytes.length = 34 := by
  simp [Rotation.to_bytes, leBytes_length]

theorem Protocol.bytes_length (p : Protocol) :
    (p.bytes_vec_to_send).length = 110 := by
  simp [Protocol.bytes_vec_to_send, Rotation.to_bytes_length, leBytes_length]

theorem Rotation.seg_rpm (r : Rotation) :
    byteSeg r.to_bytes 0 4 = leBytes r.rpm 4 := by
  rw [byteSeg, Rotation.to_bytes]
  simp only [List.append_assoc]
  rw [List.drop_zero, List.take_left' (leBytes_length _ 4)]

theorem Rotation.seg_acceleration (r : Rotation) :
    byteSeg r.to_bytes 4 4 = leBytes r.acceleration 4 := by
  rw [byteSeg, Rotation.to_bytes]
  simp only [List.append_assoc]
  rw [List.drop_left' (leBytes_length _ 4), List.take_left' (leBytes_length _ 4)]

theorem Rotation.seg_step_mode (r : Rotation) :
    byteSeg r.to_bytes 8 1 = [r.step_mode.to_byte] := by
  rw [byteSeg, Rotation.to_bytes]
  simp only [List.append_assoc]
  rw [drop_chunk _ _ 8 4 (by simp [leBytes_length]),
    List.drop_left' (leBytes_length _ 4),
    List.take_left' (show ([r.step_mode.to_byte] : List Nat).length = 1 from rfl)]

theorem Rotation.seg_cycle (r : Rotation) :
    byteSeg r.to_bytes 9 8 = leBytes r.duration_of_one_direction_cycle_ms 8 := by
  rw [byteSeg, Rotation.to_bytes]
  simp only [List.append_assoc]
  rw [drop_chunk _ _ 9 5 (by simp [leBytes_length]),
    drop_chunk _ _ 5 1 (by simp [leBytes_length]),
    List.drop_left' (show ([r.step_mode.to_byte] : List Nat).length = 1 from rfl),
    List.take_left' (leBytes_length _ 8)]

theorem Rotation.seg_steps (r : Rotation) :
    byteSeg r.to_bytes 17 8 = leBytes r.steps_for_one_direction_cycle 8 := by
  rw [byteSeg, Rotation.to_bytes]
  simp only [List.append_assoc]
  rw [drop_chunk _ _ 17 13 (by simp [leBytes_length]),
    drop_chunk _ _ 13 9 (by simp [leBytes_length]),
    drop_chunk _ _ 9 8 (by simp),
    List.drop_left' (leBytes_length _ 8),
    List.take_left' (leBytes_length _ 8)]

theorem Rotation.seg_direction (r : Rotation) :
    byteSeg r.to_bytes 25 1 = [r.direction.to_byte] := by
  rw [byteSeg, Rotation.to_bytes]
  simp only [List.append_assoc]
  rw [drop_chunk _ _ 25 21 (by simp [leBytes_length]),
    drop_chunk _ _ 21 17 (by simp [leBytes_length]),
    drop_chunk _ _ 17 16 (by simp),
    drop_chunk _ _ 16 8 (by simp [leBytes_length]),
    List.drop_left' (leBytes_length _ 8),
    List.take_left' (show ([r.direction.to_byte] : List Nat).length = 1 from rfl)]

theorem Rotation.seg_pause (r : Rotation) :
    byteSeg r.to_bytes 26 8 = leBytes r.pause_before_direction_change_ms 8 := by
  rw [byteSeg, Rotation.to_bytes]
  simp only [List.append_assoc]
  rw [drop_chunk _ _ 26 22 (by simp [leBytes_length]),
    drop_chunk _ _ 22 18 (by simp [leBytes_length]),
    drop_chunk _ _ 18 17 (by simp),
    drop_chunk _ _ 17 9 (by simp [leBytes_length]),
    drop_chunk _ _ 9 1 (by simp [leBytes_length]),
    List.drop_left' (show ([r.direction.to_byte] : List Nat).length = 1 from rfl)]
  exact List.take_of_length_le (by simp [leBytes_length])

theorem Protocol.seg_sentinel_a (p : Protocol) :
    byteSeg p.bytes_vec_to_send 0 1 = [97] := by
  rw [byteSeg, Protocol.bytes_vec_to_send]
  simp only [List.append_assoc]
  rw [List.drop_zero, List.take_left' (show ([97] : List Nat).length = 1 from rfl)]

theorem Protocol.seg_rotation (p : Protocol) :
    byteSeg p.bytes_vec_to_send 1 34 = p.rotation.to_bytes := by
  rw [byteSeg, Protocol.bytes_vec_to_send]
  simp only [List.append_assoc]
  rw [List.drop_left' (show ([97] : List Nat).length = 1 from rfl),
    List.take_left' p.rotation.to_bytes_length]

theorem Protocol.seg_rotation_duration (p : Protocol) :
    byteSeg p.bytes_vec_to_send 35 8 = leBytes p.rotation_duration_ms 8 := by
  rw [byteSeg, Protocol.bytes_vec_to_send]
  simp only [List.append_assoc]
  rw [drop_chunk _ _ 35 34 (by simp),
    List.drop_left' p.rotation.to_bytes_length,
    List.take_left' (leBytes_length _ 8)]

theorem Protocol.seg_pause_before (p : Protocol) :
    byteSeg p.bytes_vec_to_send 43 8 = leBytes p.pause_before_agitation_ms 8 := by
  rw [byteSeg, Protocol.bytes_vec_to_send]
  simp only [List.append_assoc]
  rw [drop_chunk _ _ 43 42 (by simp),
    drop_chunk _ _ 42 8 (by simp [Rotation.to_bytes_length]),
    List.drop_left' (leBytes_length _ 8),
    List.take_left' (leBytes_length _ 8)]

theorem Protocol.seg_agitation (p : Protocol) :
    byteSeg p.bytes_vec_to_send 51 34 = p.agitation.to_bytes := by
  rw [byteSeg, Protocol.bytes_vec_to_send]
  simp only [List.append_assoc]
  rw [drop_chunk _ _ 51 50 (by simp),
    drop_chunk _ _ 50 16 (by simp [Rotation.to_bytes_length]),
    drop_chunk _ _ 16 8 (by simp [leBytes_length]),
    List.drop_left' (leBytes_length _ 8),
    List.take_left' p.agitation.to_bytes_length]

theorem Protocol.seg_agitation_duration (p : Protocol) :
    byteSeg p.bytes_vec_to_send 85 8 = leBytes p.agitation_duration_ms 8 := by
  rw [byteSeg, Protocol.bytes_vec_to_send]
  simp only [List.append_assoc]
  rw [drop_chunk _ _ 85 84 (by simp),
    drop_chunk _ _ 84 50 (by simp [Rotation.to_bytes_length]),
    drop_chunk _ _ 50 42 (by simp [leBytes_length]),
    drop_chunk _ _ 42 34 (by simp [leBytes_length]),
    List.drop_left' p.agitation.to_bytes_length,
    List.take_left' (leBytes_length _ 8)]

theorem Protocol.seg_pause_after (p : Protocol) :
    byteSeg p.bytes_vec_to_send 93 8 = leBytes p.pause_after_agitation_ms 8 := by
  rw [byteSeg, Protocol.bytes_vec_to_send]
  simp only [List.append_assoc]
  rw [drop_chunk _ _ 93 92 (by simp),
    drop_chunk _ _ 92 58 (by simp [Rotation.to_bytes_length]),
    drop_chunk _ _ 58 50 (by simp [leBytes_length]),
    drop_chunk _ _ 50 42 (by simp [leBytes_length]),
    drop_chunk _ _ 42 8 (by simp [Rotation.to_bytes_length]),
    List.drop_left' (leBytes_length _ 8),
    List.take_left' (leBytes_length _ 8)]

theorem Protocol.seg_global_duration (p : Protocol) :
    byteSeg p.bytes_vec_to_send 101 8 = leBytes p.global_duration_ms 8 := by
  rw [byteSeg, Protocol.bytes_vec_to_send]
  simp only [List.append_assoc]
  rw [drop_chunk _ _ 101 100 (by simp),
    drop_chunk _ _ 100 66 (by simp [Rotation.to_bytes_length]),
    drop_chunk _ _ 66 58 (by simp [leBytes_length]),
    drop_chunk _ _ 58 50 (by simp [leBytes_length]),
    drop_chunk _ _ 50 16 (by simp [Rotation.to_bytes_length]),
    drop_chunk _ _ 16 8 (by simp [leBytes_length]),
    List.drop_left' (leBytes_length _ 8),
    List.take_left' (leBytes_length _ 8)]

theorem Protocol.seg_sentinel_z (p : Protocol) :
    byteSeg p.bytes_vec_to_send 109 1 = [122] := by
  rw [byteSeg, Protocol.bytes_vec_to_send]
  simp only [List.append_assoc]
  rw [drop_chunk _ _ 109 108 (by simp),
    drop_chunk _ _ 108 74 (by simp [Rotation.to_bytes_length]),
    drop_chunk _ _ 74 66 (by simp [leBytes_length]),
    drop_chunk _ _ 66 58 (by simp [leBytes_length]),
    drop_chunk _ _ 58 24 (by simp [Rotation.to_bytes_length]),
    drop_chunk _ _ 24 16 (by simp [leBytes_length]),
    drop_chunk _ _ 16 8 (by simp [leBytes_length]),
    List.drop_left' (leBytes_length _ 8)]
  exact List.take_of_length_le (by simp)

/-! ## Decoding (modelled from the spec)

The repository's files contain no decoder for the command buffer (the
firmware decodes it); the spec requires `decode(encode(p)) == p`. -/

/-- Modelled from the spec: inverse of `StepMode128::to_byte`
("step_resolution_index(1, 0=Full…7=1/128)"). -/
def StepMode128.of_byte (b : Nat) : Option StepMode128 :=
  if b = 0 then some .Full
  else if b = 1 then some .M2
  else if b = 2 then some .M4
  else if b = 3 then some .M8
  else if b = 4 then some .M16
  else if b = 5 then some .M32
  else if b = 6 then some .M64
  else if b = 7 then some .M128
  else none

/-- Modelled from the spec: inverse of `Direction::to_byte`
("direction(1, 0=Forward/1=Backward)"). -/
def Direction.of_byte (b : Nat) : Option Direction :=
  if b = 0 then some .Forward
  else if b = 1 then some .Backward
  else none

theorem StepMode128.of_byte_left_inverse (m : StepMode128) :
    StepMode128.of_byte m.to_byte = some m := by
  cases m <;> rfl

theorem Direction.of_byte_dir_left_inverse (d : Direction) :
    Direction.of_byte d.to_byte = some d := by
  cases d <;> rfl

/-- Modelled from the spec: decoder of the 34-byte axis record, reading the
fields at the offsets of `Rotation::to_bytes`'s layout:
`rpm(4) | acceleration(4) | step_resolution_index(1) | cycle_duration_ms(8) |
steps_per_cycle(8) | direction(1) | pause_before_reverse_ms(8)`. -/
def Rotation.decode (bs : List Nat) : Option Rotation :=
  if bs.length = 34 then
    (StepMode128.of_byte ((byteSeg bs 8 1).headD 0)).bind fun sm =>
    (Direction.of_byte ((byteSeg bs 25 1).headD 0)).bind fun d =>
    some { rpm := fromLeBytes (byteSeg bs 0 4),
           acceleration := fromLeBytes (byteSeg bs 4 4),
           step_mode := sm,
           duration_of_one_direction_cycle_ms := fromLeBytes (byteSeg bs 9 8),
           steps_for_one_direction_cycle := fromLeBytes (byteSeg bs 17 8),
           direction := d,
           pause_before_direction_change_ms := fromLeBytes (byteSeg bs 26 8) }
  else none

/-- Modelled from the spec: decoder of the fixed 110-byte command buffer,
checking the framing sentinels `'a'`/`'z'` and reading the fields at the
offsets of `Protocol::bytes_vec_to_send`'s layout. -/
def Protocol.decode (bs : List Nat) : Option Protocol :=
  if bs.length = 110 ∧ byteSeg bs 0 1 = [97] ∧ byteSeg bs 109 1 = [122] then
    (Rotation.decode (byteSeg bs 1 34)).bind fun r =>
    (Rotation.decode (byteSeg bs 51 34)).bind fun a =>
    some { rotation := r,
           rotation_duration_ms := fromLeBytes (byteSeg bs 35 8),
           pause_before_agitation_ms := fromLeBytes (byteSeg bs 43 8),
           agitation := a,
           agitation_duration_ms := fromLeBytes (byteSeg bs 85 8),
           pause_after_agitation_ms := fromLeBytes (byteSeg bs 93 8),
           global_duration_ms := fromLeBytes (byteSeg bs 101 8) }
  else none

/-- The machine-width invariant Rust's types give the axis fields:
`rpm`/`acceleration` fit a `u32`, the durations and step counts a `u64`. -/
def Rotation.wf (r : Rotation) : Prop :=
  r.rpm < 2 ^ 32 ∧ r.acceleration < 2 ^ 32 ∧
  r.duration_of_one_direction_cycle_ms < 2 ^ 64 ∧
  r.steps_for_one_direction_cycle < 2 ^ 64 ∧
  r.pause_before_direction_change_ms < 2 ^ 64

instance (r : Rotation) : Decidable r.wf := by
  unfold Rotation.wf; infer_instance

/-- The machine-width invariant for a whole `Protocol`. -/
def Protocol.wf (p : Protocol) : Prop :=
  p.rotation.wf ∧ p.agitation.wf ∧
  p.rotation_duration_ms < 2 ^ 64 ∧ p.pause_before_agitation_ms < 2 ^ 64 ∧
  p.agitation_duration_ms < 2 ^ 64 ∧ p.pause_after_agitation_ms < 2 ^ 64 ∧
  p.global_duration_ms < 2 ^ 64

instance (p : Protocol) : Decidable p.wf := by
  unfold Protocol.wf; infer_instance

theorem Rotation.decode_to_bytes (r : Rotation) (h : r.wf) :
    Rotation.decode r.to_bytes = some r := by
  obtain ⟨h1, h2, h3, h4, h5⟩ := h
  rw [Rotation.decode, if_pos r.to_bytes_length, Rotation.seg_step_mode,
    Rotation.seg_direction]
  simp only [List.headD_cons, StepMode128.of_byte_left_inverse,
    Direction.of_byte_dir_left_inverse, Option.some_bind]
  rw [Rotation.seg_rpm, Rotation.seg_acceleration, Rotation.seg_cycle,
    Rotation.seg_steps, Rotation.seg_pause,
    fromLeBytes_leBytes _ 4 h1, fromLeBytes_leBytes _ 4 h2,
    fromLeBytes_leBytes _ 8 h3, fromLeBytes_leBytes _ 8 h4,
    fromLeBytes_leBytes _ 8 h5]

theorem Protocol.decode_bytes_vec_to_send (p : Protocol) (h : p.wf) :
    Protocol.decode p.bytes_vec_to_send = some p := by
  obtain ⟨hr, ha, h1, h2, h3, h4, h5⟩ := h
  rw [Protocol.decode,
    if_pos ⟨p.bytes_length, p.seg_sentinel_a, p.seg_sentinel_z⟩,
    Protocol.seg_rotation, Protocol.seg_agitation,
    Rotation.decode_to_bytes _ hr, Rotation.decode_to_bytes _ ha]
  simp only [Option.some_bind]
  rw [Protocol.seg_rotation_duration, Protocol.seg_pause_before,
    Protocol.seg_agitation_duration, Protocol.seg_pause_after,
    Protocol.seg_global_duration,
    fromLeBytes_leBytes _ 8 h1, fromLeBytes_leBytes _ 8 h2,
    fromLeBytes_leBytes _ 8 h3, fromLeBytes_leBytes _ 8 h4,
    fromLeBytes_leBytes _ 8 h5]

/-! ## Session state (src/utils/structs.rs, src/utils/motor.rs)

`Instant` is modelled as an absolute millisecond timestamp `Nat`; every
state transition that reads the clock takes the current instant `now` as an
argument.  Serial output is modelled as the list of byte buffers written to
the port, in order; toast messages as a list. -/

/-- `egui_toast::ToastKind`, as the sources use it. -/
inductive ToastKind where
  | Info
  | Warning
  | Error
  | Success
deriving DecidableEq, Repr

/-- `Message` (structs.rs lines 31-38): kind, text, optional error detail,
optional origin (motor name), display duration, waiting flag. -/
structure Message where
  kind : ToastKind
  message : String
  error : Option String
  origin : Option String
  duration : Nat
  is_waiting : Bool
deriving DecidableEq, Repr

/-- `TimersAndPhases` (structs.rs lines 218-226).  `phase` is the sub-phase
and `global_phase` the main phase (motor.rs, a later revision of the same
repository, calls them `sub_phase` and `main_phase`, `start_time` it calls
`global_start_time` and `stop_time_ms` it calls `global_stop_time_ms`).
`rotation_direction` and `agitation_direction` are modelled from the spec's
`PhaseState`: motor.rs writes them and tabs.rs reads them, but the struct
definition frozen in structs.rs predates them. -/
structure TimersAndPhases where
  start_time : Option Nat
  stop_time_ms : Option Nat
  phase : StepperState
  phase_start_time : Option Nat
  global_phase : StepperState
  global_phase_start_time : Option Nat
  rotation_direction : Direction
  agitation_direction : Direction
deriving DecidableEq, Repr

/-- `TimersAndPhases::default`: no timers set, both phases at the default
`Finished`, both directions at the default `Forward`. -/
def TimersAndPhases.default : TimersAndPhases :=
  { start_time := none, stop_time_ms := none,
    phase := .Finished, phase_start_time := none,
    global_phase := .Finished, global_phase_start_time := none,
    rotation_direction := .Forward, agitation_direction := .Forward }

/-- `TimersAndPhases::get_elapsed_time_since_motor_start_as_millis`
(structs.rs lines 253-258): elapsed milliseconds since `start_time`, 0 when
the timer is unset. -/
def TimersAndPhases.get_elapsed_time_since_motor_start_as_millis
    (t : TimersAndPhases) (now : Nat) : Nat :=
  match t.start_time with
  | some s => now - s
  | none => 0

/-- `TimersAndPhases::set_stop_time_motor_stopped` (structs.rs lines
286-288); motor.rs calls it `set_global_stop_time_stopped`. -/
def TimersAndPhases.set_stop_time_motor_stopped
    (t : TimersAndPhases) (now : Nat) : TimersAndPhases :=
  { t with
    stop_time_ms := some (t.get_elapsed_time_since_motor_start_as_millis now) }

/-- The session state of one `Motor` (motor.rs lines 20-31) that the core
transitions touch, plus the two observable effect streams: `sent`, the byte
buffers written to the serial port in order, and `messages`, the toasts
emitted in order.  The GUI-only fields (`graph` handles, `frame_hisory`,
`angle_rotation`, `angle_agitation`) and the port handle itself are not part
of the model. -/
structure Motor where
  name : String
  is_running : Bool
  protocol : Protocol
  timers_and_phases : TimersAndPhases
  sent : List (List Nat)
  messages : List Message
deriving DecidableEq, Repr

/-- `Motor::default` (motor.rs lines 33-48). -/
def Motor.default : Motor :=
  { name := "", is_running := false, protocol := Protocol.default,
    timers_and_phases := TimersAndPhases.default, sent := [], messages := [] }

/-- The stop command `Motor::stop_motor` writes: `b"stop"`, the four ASCII
bytes `s t o p`. -/
def stopCommand : List Nat := [115, 116, 111, 112]

/-- `Motor::stop_motor` (motor.rs lines 132-144): store `is_running = false`,
send `b"stop"`, record the stopped elapsed time, clear both phase start
timers, reset both phases to the default (`Finished`), emit an info toast. -/
def Motor.stop_motor (m : Motor) (now : Nat) : Motor :=
  { m with
    is_running := false,
    sent := m.sent ++ [stopCommand],
    timers_and_phases :=
      { m.timers_and_phases.set_stop_time_motor_stopped now with
        phase_start_time := none,
        phase := .Finished,
        global_phase_start_time := none,
        global_phase := .Finished },
    messages := m.messages ++
      [{ kind := .Info, message := m.name ++ " has been stopped.",
         error := none, origin := none, duration := 3, is_waiting := false }] }

/-- The normalization `Motor::start_motor` applies before checking the
duration (motor.rs lines 96-109): an axis whose
`cycle duration + pause before reverse` is 0 gets its phase duration forced
to 0, and an axis whose phase duration is 0 gets its adjacent pause forced
to 0. -/
def normalizeProtocol (p : Protocol) : Protocol :=
  let p1 := if p.rotation.get_min_duration = 0
    then { p with rotation_duration_ms := 0 } else p
  let p2 := if p1.agitation.get_min_duration = 0
    then { p1 with agitation_duration_ms := 0 } else p1
  let p3 := if p2.rotation_duration_ms = 0
    then { p2 with pause_before_agitation_ms := 0 } else p2
  if p3.agitation_duration_ms = 0
    then { p3 with pause_after_agitation_ms := 0 } else p3

/-- `Motor::start_motor` (motor.rs lines 95-130): normalize the protocol in
place; if the duration without pauses is 0, zero `global_duration_ms`, emit
the "0 duration" error toast and return; otherwise set `is_running`, reset
the global timer and both directions, and send the encoded command buffer. -/
def Motor.start_motor (m : Motor) (now : Nat) : Motor :=
  let p := normalizeProtocol m.protocol
  if p.get_duration_without_pause = 0 then
    { m with
      protocol := { p with global_duration_ms := 0 },
      messages := m.messages ++
        [{ kind := .Error,
           message := "The duration of the protocol is 0. Please check the durations.",
           error := some "0 duration", origin := some m.name, duration := 3,
           is_waiting := false }] }
  else
    { m with
      protocol := p,
      is_running := true,
      timers_and_phases :=
        { m.timers_and_phases with
          start_time := some now,
          stop_time_ms := none,
          rotation_direction := p.rotation.direction,
          agitation_direction := p.agitation.direction },
      sent := m.sent ++ [p.bytes_vec_to_send] }

/-- The error kinds `Motor::import_protocol` can report; each corresponds to
one distinct `bail!` message in motor.rs lines 154-178. -/
inductive ImportError where
  | accelerationZero
  | accelerationTooHigh
  | rpmTooHigh
  | durationTooHigh
deriving DecidableEq, Repr

/-- The `bail!` text of each `ImportError`. -/
def ImportError.text : ImportError → String
  | .accelerationZero => "The acceleration of the rotation or agitation is 0"
  | .accelerationTooHigh => "The acceleration of the rotation or agitation is too high"
  | .rpmTooHigh => "The rpm of the rotation or agitation is higher than the max rpm"
  | .durationTooHigh => "Some duration is too high"

/-- `Motor::import_protocol` (motor.rs lines 154-178), checks in source
order.  Note the source zeroes `self.protocol.global_duration_ms` when the
candidate's duration-without-pause is 0 *before* the duration check can
still fail. -/
def Motor.import_protocol (m : Motor) (q : Protocol) :
    Except ImportError Unit × Motor :=
  if q.rotation.acceleration = 0 ∨ q.agitation.acceleration = 0 then
    (.error .accelerationZero, m)
  else if MAX_ACCELERATION < q.rotation.acceleration ∨
      MAX_ACCELERATION < q.agitation.acceleration then
    (.error .accelerationTooHigh, m)
  else if q.rotation.max_rpm < q.rotation.rpm ∨
      q.agitation.max_rpm < q.agitation.rpm then
    (.error .rpmTooHigh, m)
  else
    let m1 := if q.get_duration_without_pause = 0 then
        { m with protocol := { m.protocol with global_duration_ms := 0 } }
      else m
    if MAX_DURATION_MS < q.rotation.duration_of_one_direction_cycle_ms ∨
        MAX_DURATION_MS < q.agitation.duration_of_one_direction_cycle_ms ∨
        MAX_DURATION_MS < q.rotation.pause_before_direction_change_ms ∨
        MAX_DURATION_MS < q.agitation.pause_before_direction_change_ms ∨
        MAX_DURATION_MS < q.global_duration_ms ∨
        MAX_DURATION_MS < q.rotation_duration_ms ∨
        MAX_DURATION_MS < q.agitation_duration_ms ∨
        MAX_DURATION_MS < q.pause_before_agitation_ms ∨
        MAX_DURATION_MS < q.pause_after_agitation_ms then
      (.error .durationTooHigh, m1)
    else
      (.ok (), { m1 with protocol := q })

/-- The validation conditions of `Motor::import_protocol`, as the spec lists
them: zero acceleration, over-limit acceleration, rpm above the
resolution-adjusted maximum, or any duration field above `MAX_DURATION_MS`,
on either axis. -/
def protocolViolation (q : Protocol) : Prop :=
  (q.rotation.acceleration = 0 ∨ q.agitation.acceleration = 0) ∨
  (MAX_ACCELERATION < q.rotation.acceleration ∨
    MAX_ACCELERATION < q.agitation.acceleration) ∨
  (q.rotation.max_rpm < q.rotation.rpm ∨ q.agitation.max_rpm < q.agitation.rpm) ∨
  (MAX_DURATION_MS < q.rotation.duration_of_one_direction_cycle_ms ∨
    MAX_DURATION_MS < q.agitation.duration_of_one_direction_cycle_ms ∨
    MAX_DURATION_MS < q.rotation.pause_before_direction_change_ms ∨
    MAX_DURATION_MS < q.agitation.pause_before_direction_change_ms ∨
    MAX_DURATION_MS < q.global_duration_ms ∨
    MAX_DURATION_MS < q.rotation_duration_ms ∨
    MAX_DURATION_MS < q.agitation_duration_ms ∨
    MAX_DURATION_MS < q.pause_before_agitation_ms ∨
    MAX_DURATION_MS < q.pause_after_agitation_ms)

instance (q : Protocol) : Decidable (protocolViolation q) := by
  unfold protocolViolation; infer_instance

/-! ## The serial listener's event dispatch (src/utils/serial.rs) -/

/-- `Display for StepperState` (enums.rs lines 137-159). -/
def StepperState.display : StepperState → String
  | .CommandReceived => "Command received"
  | .Finished => "Idle"
  | .EmergencyStop => "Emergency stop"
  | .OpenLoad => "Open load"
  | .OverCurrent => "Over current"
  | .OverHeat => "Over heat"
  | .OscillationRotation => "Cycle"
  | .OscillationAgitation => "Cycle"
  | .StartRotation => "Rotation"
  | .StartPauseRotation => "Pause rotation"
  | .StartPausePreAgitation => "Pause pre agitation"
  | .StartAgitation => "Agitation"
  | .StartPauseAgitation => "Pause agitation"
  | .StartPausePostAgitation => "Pause post agitation"
  | .StepgenRotationError => "Error generating rotation steps"
  | .StepgenAgitationError => "Error generating agitation steps"
  | .Invalid => "Invalid"

/-- The error detail the listener attaches to fault toasts (serial.rs line
100): the received code rendered as text (the Rust format also appends the
raw byte values, elided here). -/
def receivedDetail (b1 b2 b3 : Nat) : String :=
  "Received: " ++ String.mk [Char.ofNat b1, Char.ofNat b2, Char.ofNat b3]

/-- The shared shape of the listener's stop-the-run branches (`fin`, `emr`,
`er1`, `er2`, `er3`, `erp`, `eap`, serial.rs lines 104-153 and 186-205):
record the stopped elapsed time, freeze both phases at `st` with no timers,
emit a toast, store `is_running = false`. -/
def listenStopBranch (m : Motor) (now : Nat) (st : StepperState)
    (kind : ToastKind) (err : Option String) : Motor :=
  { m with
    is_running := false,
    timers_and_phases :=
      { m.timers_and_phases.set_stop_time_motor_stopped now with
        phase := st, phase_start_time := none,
        global_phase := st, global_phase_start_time := none },
    messages := m.messages ++
      [{ kind := kind, message := st.display, error := err,
         origin := some m.name, duration := 5, is_waiting := false }] }

/-- One decoded-event dispatch of the listener thread
(`Serial::listen_to_serial_port`, serial.rs lines 96-209): the 3 bytes just
read are decoded to a `StepperState` and drive the state machine.  `Invalid`
only clears the receive buffer (not part of the model), so the session state
is unchanged. -/
def listenStep (m : Motor) (now : Nat) (b1 b2 b3 : Nat) : Motor :=
  let detail := some (receivedDetail b1 b2 b3)
  match StepperState.from_bytes b1 b2 b3 with
  | .CommandReceived => m
  | .Finished => listenStopBranch m now .Finished .Success none
  | .EmergencyStop => listenStopBranch m now .EmergencyStop .Error detail
  | .OpenLoad => listenStopBranch m now .OpenLoad .Error detail
  | .OverCurrent => listenStopBranch m now .OverCurrent .Error detail
  | .OverHeat => listenStopBranch m now .OverHeat .Error detail
  | .OscillationRotation =>
      { m with timers_and_phases :=
          { m.timers_and_phases with
            phase := .OscillationRotation, phase_start_time := some now } }
  | .OscillationAgitation =>
      { m with timers_and_phases :=
          { m.timers_and_phases with
            phase := .OscillationAgitation, phase_start_time := some now } }
  | .StartRotation =>
      { m with timers_and_phases :=
          { m.timers_and_phases with
            global_phase := .StartRotation, global_phase_start_time := some now } }
  | .StartPauseRotation =>
      { m with timers_and_phases :=
          { m.timers_and_phases with
            phase := .StartPauseRotation, phase_start_time := some now } }
  | .StartPausePreAgitation =>
      { m with timers_and_phases :=
          { m.timers_and_phases with
            phase := .StartPausePreAgitation, phase_start_time := some now } }
  | .StartAgitation =>
      { m with timers_and_phases :=
          { m.timers_and_phases with
            global_phase := .StartAgitation, global_phase_start_time := some now } }
  | .StartPauseAgitation =>
      { m with timers_and_phases :=
          { m.timers_and_phases with
            phase := .StartPauseAgitation, phase_start_time := some now } }
  | .StartPausePostAgitation =>
      { m with timers_and_phases :=
          { m.timers_and_phases with
            phase := .StartPausePostAgitation, phase_start_time := some now } }
  | .StepgenAgitationError => listenStopBranch m now .StepgenAgitationError .Error detail
  | .StepgenRotationError => listenStopBranch m now .StepgenRotationError .Error detail
  | .Invalid => m

/-! ## The motion-profile generation loop (src/utils/motor.rs)

`Motor::generate_graph_rotation` (motor.rs lines 180-218; the agitation
variant lines 220-258 is identical up to the axis): the step-timing
generator is a black box (spec §1) whose output is the sequence of per-step
delays in microseconds, taken here as an input list.  The Rust `f64` time
and rpm values are modelled as rationals; the point-count claims are
independent of the arithmetic because every push is guarded by the same
`!is_max_points` test. -/

structure GraphState where
  points : List (ℚ × ℚ)
  last_rpm : ℚ
  delay_acc_us : Nat
  acc_us_for_points : Nat

/-- One iteration of the generation loop body (motor.rs lines 200-216) for
one delay value, with `mult` the step-mode multiplier and `threshold_us` the
`point_threshold_us` computed before the loop.  A point is pushed when the
rpm changed since the last pushed point, or the keep-alive threshold has
elapsed — in both cases only while `points.len() > MAX_POINTS_GRAPHS` is
still false. -/
def graphStep (mult threshold_us : Nat) (s : GraphState) (delay : Nat) :
    GraphState :=
  let is_max_points := MAX_POINTS_GRAPHS < s.points.length
  let rpm_for_graph : ℚ := 300000 / (mult : ℚ) / ((delay : ℚ) + 1)
  let point : ℚ × ℚ := ((s.delay_acc_us : ℚ) / 1000000, rpm_for_graph)
  let s1 :=
    if rpm_for_graph ≠ s.last_rpm ∧ ¬ is_max_points then
      { s with points := s.points ++ [point], last_rpm := rpm_for_graph }
    else if threshold_us ≤ s.acc_us_for_points ∧ ¬ is_max_points then
      { s with points := s.points ++ [point], acc_us_for_points := 0 }
    else s
  { s1 with delay_acc_us := s1.delay_acc_us + delay,
            acc_us_for_points := s1.acc_us_for_points + delay }

/-- A whole generation run: the spawned thread first clears the point
buffer, then folds the loop body over the delays the black-box step
generator yields. -/
def graphRun (mult threshold_us : Nat) (delays : List Nat) : GraphState :=
  delays.foldl (graphStep mult threshold_us)
    { points := [], last_rpm := 0, delay_acc_us := 0, acc_us_for_points := 0 }

/-! ## Concrete fixtures (from protocols.rs lines 61-83 and 125-135) -/

/-- `Rotation::test_rotation` (protocols.rs lines 61-71). -/
def Rotation.test_rotation : Rotation :=
  { rpm := 60, acceleration := 6000, step_mode := .M16,
    duration_of_one_direction_cycle_ms := 5000, steps_for_one_direction_cycle := 0,
    direction := .Forward, pause_before_direction_change_ms := 0 }

/-- `Rotation::test_agitation` (protocols.rs lines 73-83). -/
def Rotation.test_agitation : Rotation :=
  { rpm := 4000, acceleration := 10000, step_mode := .Full,
    duration_of_one_direction_cycle_ms := 5000, steps_for_one_direction_cycle := 0,
    direction := .Forward, pause_before_direction_change_ms := 0 }

/-- `Protocol::test_protocol` (protocols.rs lines 125-135). -/
def Protocol.test_protocol : Protocol :=
  { rotation := Rotation.test_rotation, rotation_duration_ms := 10000,
    pause_before_agitation_ms := 1000, agitation := Rotation.test_agitation,
    agitation_duration_ms := 10000, pause_after_agitation_ms := 1000,
    global_duration_ms := 60000 }

/-- A session whose stored protocol has `global_duration_ms = 5`. -/
def motorWithGlobal5 : Motor :=
  { Motor.default with
    protocol := { Protocol.default with global_duration_ms := 5 } }

/-- An import candidate whose duration-without-pause is 0 (both phase
durations and both pauses are 0) and whose rotation cycle duration exceeds
`MAX_DURATION_MS`; accelerations and rpm are valid. -/
def failingCandidate : Protocol :=
  { Protocol.default with
    rotation := { Rotation.default with
      duration_of_one_direction_cycle_ms := MAX_DURATION_MS + 1 } }

/-- A session whose protocol normalizes to zero phase durations (both axes
have cycle duration 0 and pause-before-reverse 0) while carrying nonzero
`rotation_duration_ms`, `agitation_duration_ms` and `global_duration_ms`. -/
def zeroDurMotor : Motor :=
  { Motor.default with
    protocol := { Protocol.default with
      rotation_duration_ms := 5, agitation_duration_ms := 6,
      global_duration_ms := 7 } }

/-- A running session in the rotation phase with both stored directions at
`Forward`, about to receive an oscillation-flip code. -/
def oscMotor : Motor :=
  { Motor.default with
    is_running := true,
    timers_and_phases :=
      { TimersAndPhases.default with global_phase := .StartRotation } }

/-! ## Helper lemmas for the claims -/

theorem from_bytes_unrecognized : ∀ b1 b2 b3 : Nat,
    b1 < 256 → b2 < 256 → b3 < 256 → ¬ recognizedCode b1 b2 b3 →
    StepperState.from_bytes b1 b2 b3 = .Invalid := by
  intro b1 b2 b3 _ _ _ hn
  unfold recognizedCode at hn
  have n1 := fun h => hn (Or.inl h)
  have n2 := fun h => hn (Or.inr (Or.inl h))
  have n3 := fun h => hn (Or.inr (Or.inr (Or.inl h)))
  have n4 := fun h => hn (Or.inr (Or.inr (Or.inr (Or.inl h))))
  have n5 := fun h => hn (Or.inr (Or.inr (Or.inr (Or.inr (Or.inl h)))))
  have n6 := fun h => hn (Or.inr (Or.inr (Or.inr (Or.inr (Or.inr (Or.inl h))))))
  have n7 := fun h => hn (Or.inr (Or.inr (Or.inr (Or.inr (Or.inr (Or.inr (Or.inl h)))))))
  have n8 := fun h => hn (Or.inr (Or.inr (Or.inr (Or.inr (Or.inr (Or.inr (Or.inr (Or.inl h))))))))
  have n9 := fun h => hn (Or.inr (Or.inr (Or.inr (Or.inr (Or.inr (Or.inr (Or.inr (Or.inr (Or.inl h)))))))))
  have n10 := fun h => hn (Or.inr (Or.inr (Or.inr (Or.inr (Or.inr (Or.inr (Or.inr (Or.inr (Or.inr (Or.inl h))))))))))
  have n11 := fun h => hn (Or.inr (Or.inr (Or.inr (Or.inr (Or.inr (Or.inr (Or.inr (Or.inr (Or.inr (Or.inr (Or.inl h)))))))))))
  have n12 := fun h => hn (Or.inr (Or.inr (Or.inr (Or.inr (Or.inr (Or.inr (Or.inr (Or.inr (Or.inr (Or.inr (Or.inr (Or.inl h))))))))))))
  have n13 := fun h => hn (Or.inr (Or.inr (Or.inr (Or.inr (Or.inr (Or.inr (Or.inr (Or.inr (Or.inr (Or.inr (Or.inr (Or.inr (Or.inl h)))))))))))))
  have n14 := fun h => hn (Or.inr (Or.inr (Or.inr (Or.inr (Or.inr (Or.inr (Or.inr (Or.inr (Or.inr (Or.inr (Or.inr (Or.inr (Or.inr (Or.inl h))))))))))))))
  have n15 := fun h => hn (Or.inr (Or.inr (Or.inr (Or.inr (Or.inr (Or.inr (Or.inr (Or.inr (Or.inr (Or.inr (Or.inr (Or.inr (Or.inr (Or.inr (Or.inl h)))))))))))))))
  have n16 := fun h => hn (Or.inr (Or.inr (Or.inr (Or.inr (Or.inr (Or.inr (Or.inr (Or.inr (Or.inr (Or.inr (Or.inr (Or.inr (Or.inr (Or.inr (Or.inr h)))))))))))))))
  unfold StepperState.from_bytes
  rw [if_neg n1, if_neg n2, if_neg n3, if_neg n4, if_neg n5, if_neg n6,
    if_neg n7, if_neg n8, if_neg n9, if_neg n10, if_neg n11, if_neg n12,
    if_neg n13, if_neg n14, if_neg n15, if_neg n16]

theorem import_ok_iff (m : Motor) (q : Protocol) :
    (m.import_protocol q).1 = .ok () ↔ ¬ protocolViolation q := by
  unfold Motor.import_protocol protocolViolation
  split_ifs with hA hB hC hD hE hF <;> simp_all

theorem import_ok_stores (m : Motor) (q : Protocol) :
    (m.import_protocol q).1 = .ok () → (m.import_protocol q).2.protocol = q := by
  unfold Motor.import_protocol
  split_ifs <;> simp_all

theorem import_err_accel_zero (m : Motor) (q : Protocol)
    (h : q.rotation.acceleration = 0 ∨ q.agitation.acceleration = 0) :
    (m.import_protocol q).1 = .error .accelerationZero := by
  unfold Motor.import_protocol
  rw [if_pos h]

theorem import_err_accel_high (m : Motor) (q : Protocol)
    (h0 : ¬ (q.rotation.acceleration = 0 ∨ q.agitation.acceleration = 0))
    (h : MAX_ACCELERATION < q.rotation.acceleration ∨
      MAX_ACCELERATION < q.agitation.acceleration) :
    (m.import_protocol q).1 = .error .accelerationTooHigh := by
  unfold Motor.import_protocol
  rw [if_neg h0, if_pos h]

theorem import_err_rpm_high (m : Motor) (q : Protocol)
    (h0 : ¬ (q.rotation.acceleration = 0 ∨ q.agitation.acceleration = 0))
    (h1 : ¬ (MAX_ACCELERATION < q.rotation.acceleration ∨
      MAX_ACCELERATION < q.agitation.acceleration))
    (h : q.rotation.max_rpm < q.rotation.rpm ∨
      q.agitation.max_rpm < q.agitation.rpm) :
    (m.import_protocol q).1 = .error .rpmTooHigh := by
  unfold Motor.import_protocol
  rw [if_neg h0, if_neg h1, if_pos h]

theorem import_err_duration_high (m : Motor) (q : Protocol)
    (h0 : ¬ (q.rotation.acceleration = 0 ∨ q.agitation.acceleration = 0))
    (h1 : ¬ (MAX_ACCELERATION < q.rotation.acceleration ∨
      MAX_ACCELERATION < q.agitation.acceleration))
    (h2 : ¬ (q.rotation.max_rpm < q.rotation.rpm ∨
      q.agitation.max_rpm < q.agitation.rpm))
    (h : MAX_DURATION_MS < q.rotation.duration_of_one_direction_cycle_ms ∨
        MAX_DURATION_MS < q.agitation.duration_of_one_direction_cycle_ms ∨
        MAX_DURATION_MS < q.rotation.pause_before_direction_change_ms ∨
        MAX_DURATION_MS < q.agitation.pause_before_direction_change_ms ∨
        MAX_DURATION_MS < q.global_duration_ms ∨
        MAX_DURATION_MS < q.rotation_duration_ms ∨
        MAX_DURATION_MS < q.agitation_duration_ms ∨
        MAX_DURATION_MS < q.pause_before_agitation_ms ∨
        MAX_DURATION_MS < q.pause_after_agitation_ms) :
    (m.import_protocol q).1 = .error .durationTooHigh := by
  unfold Motor.import_protocol
  rw [if_neg h0, if_neg h1, if_neg h2]
  simp only [if_pos h]

theorem graphStep_points_length (mult th : Nat) (s : GraphState) (d : Nat) :
    (graphStep mult th s d).points.length = s.points.length ∨
    ((graphStep mult th s d).points.length = s.points.length + 1 ∧
      s.points.length ≤ MAX_POINTS_GRAPHS) := by
  simp only [graphStep]
  split_ifs with h1 h2 <;> simp_all

theorem graphFold_length_le (mult th : Nat) (delays : List Nat) :
    ∀ s : GraphState, s.points.length ≤ MAX_POINTS_GRAPHS + 1 →
      ((delays.foldl (graphStep mult th) s).points.length ≤
        MAX_POINTS_GRAPHS + 1) := by
  induction delays with
  | nil => intro s h; simpa using h
  | cons d ds ih =>
      intro s h
      rw [List.foldl_cons]
      apply ih
      rcases graphStep_points_length mult th s d with h' | ⟨h', hle⟩ <;> omega

theorem graphStep_zero_length (s : GraphState) :
    (graphStep 1 0 s 0).points.length =
      if s.points.length ≤ MAX_POINTS_GRAPHS then s.points.length + 1
      else s.points.length := by
  simp only [graphStep]
  split_ifs with h1 h2 h3 <;> simp_all

theorem graphFold_replicate_zero : ∀ (n : Nat) (s : GraphState),
    s.points.length ≤ MAX_POINTS_GRAPHS + 1 →
    ((List.replicate n 0).foldl (graphStep 1 0) s).points.length =
      min (s.points.length + n) (MAX_POINTS_GRAPHS + 1) := by
  intro n
  induction n with
  | zero => intro s h; simp; omega
  | succ n ih =>
      intro s h
      rw [List.replicate_succ, List.foldl_cons]
      have h0 := graphStep_zero_length s
      have hb : (graphStep 1 0 s 0).points.length ≤ MAX_POINTS_GRAPHS + 1 := by
        rw [h0]; split_ifs <;> omega
      rw [ih _ hb, h0]
      split_ifs <;> omega

/-! ## The claims -/

/-- C1: for every `Protocol` value, the encoded command buffer is exactly
110 bytes laid out as byte 0 = `'a'`, bytes 1..35 = the 34-byte rotation
axis record, bytes 35..43 = rotation phase duration (u64 LE), bytes 43..51 =
pause-pre-agitation, bytes 51..85 = the 34-byte agitation axis record, bytes
85..93 = agitation phase duration, bytes 93..101 = pause-post-agitation,
bytes 101..109 = global duration, byte 109 = `'z'`; and each 34-byte axis
record is rpm (4 LE), acceleration (4 LE), step-resolution index (1 byte,
0 = Full … 7 = 1/128), cycle duration ms (8 LE), steps per cycle (8 LE),
direction (1 byte, 0 Forward / 1 Backward), pause-before-reverse ms (8 LE). -/
theorem protocol_command_buffer_layout (p : Protocol) :
    p.bytes_vec_to_send.length = 110 ∧
    byteSeg p.bytes_vec_to_send 0 1 = [97] ∧
    byteSeg p.bytes_vec_to_send 1 34 = p.rotation.to_bytes ∧
    byteSeg p.bytes_vec_to_send 35 8 = leBytes p.rotation_duration_ms 8 ∧
    byteSeg p.bytes_vec_to_send 43 8 = leBytes p.pause_before_agitation_ms 8 ∧
    byteSeg p.bytes_vec_to_send 51 34 = p.agitation.to_bytes ∧
    byteSeg p.bytes_vec_to_send 85 8 = leBytes p.agitation_duration_ms 8 ∧
    byteSeg p.bytes_vec_to_send 93 8 = leBytes p.pause_after_agitation_ms 8 ∧
    byteSeg p.bytes_vec_to_send 101 8 = leBytes p.global_duration_ms 8 ∧
    byteSeg p.bytes_vec_to_send 109 1 = [122] ∧
    (∀ r : Rotation,
      r.to_bytes.length = 34 ∧
      byteSeg r.to_bytes 0 4 = leBytes r.rpm 4 ∧
      byteSeg r.to_bytes 4 4 = leBytes r.acceleration 4 ∧
      byteSeg r.to_bytes 8 1 = [r.step_mode.to_byte] ∧
      byteSeg r.to_bytes 9 8 = leBytes r.duration_of_one_direction_cycle_ms 8 ∧
      byteSeg r.to_bytes 17 8 = leBytes r.steps_for_one_direction_cycle 8 ∧
      byteSeg r.to_bytes 25 1 = [r.direction.to_byte] ∧
      byteSeg r.to_bytes 26 8 = leBytes r.pause_before_direction_change_ms 8) ∧
    StepMode128.to_byte .Full = 0 ∧ StepMode128.to_byte .M2 = 1 ∧
    StepMode128.to_byte .M4 = 2 ∧ StepMode128.to_byte .M8 = 3 ∧
    StepMode128.to_byte .M16 = 4 ∧ StepMode128.to_byte .M32 = 5 ∧
    StepMode128.to_byte .M64 = 6 ∧ StepMode128.to_byte .M128 = 7 ∧
    Direction.to_byte .Forward = 0 ∧ Direction.to_byte .Backward = 1 :=
  ⟨p.bytes_length, p.seg_sentinel_a, p.seg_rotation, p.seg_rotation_duration,
    p.seg_pause_before, p.seg_agitation, p.seg_agitation_duration,
    p.seg_pause_after, p.seg_global_duration, p.seg_sentinel_z,
    fun r => ⟨r.to_bytes_length, r.seg_rpm, r.seg_acceleration, r.seg_step_mode,
      r.seg_cycle, r.seg_steps, r.seg_direction, r.seg_pause⟩,
    rfl, rfl, rfl, rfl, rfl, rfl, rfl, rfl, rfl, rfl⟩

/-- C2: for every valid (machine-width well-formed) `Protocol` value `p`,
decoding the encoded command buffer yields `p` back — the encoding is
exactly reversible. -/
theorem protocol_decode_encode_roundtrip (p : Protocol) (h : p.wf) :
    Protocol.decode p.bytes_vec_to_send = some p :=
  Protocol.decode_bytes_vec_to_send p h

/-- Witness for C2 at the source's own `Protocol::test_protocol`. -/
theorem protocol_roundtrip_witness :
    Protocol.wf Protocol.test_protocol ∧
    Protocol.decode Protocol.test_protocol.bytes_vec_to_send =
      some Protocol.test_protocol :=
  ⟨by decide, protocol_decode_encode_roundtrip Protocol.test_protocol (by decide)⟩

/-- C3: the 3-byte telemetry decoder is total and maps exactly the sixteen
listed codes to their events — `ok!`, `fin`, `emr`, `er1`, `er2`, `er3`,
`str`, `stp`, `stq`, `sta`, `stb`, `stc`, `osr`, `osa`, `erp`, `eap` — and
every other 3-byte sequence decodes to `Invalid`. -/
theorem telemetry_decoder_exact :
    StepperState.from_bytes 111 107 33 = .CommandReceived ∧
    StepperState.from_bytes 102 105 110 = .Finished ∧
    StepperState.from_bytes 101 109 114 = .EmergencyStop ∧
    StepperState.from_bytes 101 114 49 = .OpenLoad ∧
    StepperState.from_bytes 101 114 50 = .OverCurrent ∧
    StepperState.from_bytes 101 114 51 = .OverHeat ∧
    StepperState.from_bytes 115 116 114 = .StartRotation ∧
    StepperState.from_bytes 115 116 112 = .StartPauseRotation ∧
    StepperState.from_bytes 115 116 113 = .StartPausePreAgitation ∧
    StepperState.from_bytes 115 116 97 = .StartAgitation ∧
    StepperState.from_bytes 115 116 98 = .StartPauseAgitation ∧
    StepperState.from_bytes 115 116 99 = .StartPausePostAgitation ∧
    StepperState.from_bytes 111 115 114 = .OscillationRotation ∧
    StepperState.from_bytes 111 115 97 = .OscillationAgitation ∧
    StepperState.from_bytes 101 114 112 = .StepgenRotationError ∧
    StepperState.from_bytes 101 97 112 = .StepgenAgitationError ∧
    (∀ b1 b2 b3 : Nat, b1 < 256 → b2 < 256 → b3 < 256 →
      ¬ recognizedCode b1 b2 b3 → StepperState.from_bytes b1 b2 b3 = .Invalid) :=
  ⟨rfl, rfl, rfl, rfl, rfl, rfl, rfl, rfl, rfl, rfl, rfl, rfl, rfl, rfl, rfl,
    rfl, from_bytes_unrecognized⟩

/-- C4: `import_protocol` returns an error exactly when a validation rule is
violated — acceleration 0, acceleration above `MAX_ACCELERATION`, rpm above
the resolution-adjusted maximum, or any duration field above
`MAX_DURATION_MS`, on either axis — stores the protocol on success, and each
violated rule (first in source order) produces its own distinct error kind. -/
theorem import_protocol_validation_spec (m : Motor) (q : Protocol) :
    ((m.import_protocol q).1 = .ok () ↔ ¬ protocolViolation q) ∧
    ((m.import_protocol q).1 = .ok () → (m.import_protocol q).2.protocol = q) ∧
    ((q.rotation.acceleration = 0 ∨ q.agitation.acceleration = 0) →
      (m.import_protocol q).1 = .error .accelerationZero) ∧
    (¬ (q.rotation.acceleration = 0 ∨ q.agitation.acceleration = 0) →
      (MAX_ACCELERATION < q.rotation.acceleration ∨
        MAX_ACCELERATION < q.agitation.acceleration) →
      (m.import_protocol q).1 = .error .accelerationTooHigh) ∧
    (¬ (q.rotation.acceleration = 0 ∨ q.agitation.acceleration = 0) →
      ¬ (MAX_ACCELERATION < q.rotation.acceleration ∨
        MAX_ACCELERATION < q.agitation.acceleration) →
      (q.rotation.max_rpm < q.rotation.rpm ∨ q.agitation.max_rpm < q.agitation.rpm) →
      (m.import_protocol q).1 = .error .rpmTooHigh) ∧
    (¬ (q.rotation.acceleration = 0 ∨ q.agitation.acceleration = 0) →
      ¬ (MAX_ACCELERATION < q.rotation.acceleration ∨
        MAX_ACCELERATION < q.agitation.acceleration) →
      ¬ (q.rotation.max_rpm < q.rotation.rpm ∨ q.agitation.max_rpm < q.agitation.rpm) →
      (MAX_DURATION_MS < q.rotation.duration_of_one_direction_cycle_ms ∨
        MAX_DURATION_MS < q.agitation.duration_of_one_direction_cycle_ms ∨
        MAX_DURATION_MS < q.rotation.pause_before_direction_change_ms ∨
        MAX_DURATION_MS < q.agitation.pause_before_direction_change_ms ∨
        MAX_DURATION_MS < q.global_duration_ms ∨
        MAX_DURATION_MS < q.rotation_duration_ms ∨
        MAX_DURATION_MS < q.agitation_duration_ms ∨
        MAX_DURATION_MS < q.pause_before_agitation_ms ∨
        MAX_DURATION_MS < q.pause_after_agitation_ms) →
      (m.import_protocol q).1 = .error .durationTooHigh) :=
  ⟨import_ok_iff m q, import_ok_stores m q, import_err_accel_zero m q,
    import_err_accel_high m q, import_err_rpm_high m q,
    import_err_duration_high m q⟩

/-- C5: contrary to the claim that a failed `import_protocol` never mutates
session state, a candidate whose duration-without-pause is 0 and which then
fails the duration check leaves the stored protocol's `global_duration_ms`
zeroed: starting from a session whose stored protocol has
`global_duration_ms = 5`, importing `failingCandidate` returns the duration
error yet the stored value is 0 afterwards. -/
theorem import_protocol_mutates_on_failed_duration :
    (motorWithGlobal5.import_protocol failingCandidate).1 =
      .error .durationTooHigh ∧
    motorWithGlobal5.protocol.global_duration_ms = 5 ∧
    (motorWithGlobal5.import_protocol failingCandidate).2.protocol.global_duration_ms = 0 ∧
    (motorWithGlobal5.import_protocol failingCandidate).2 ≠ motorWithGlobal5 := by
  refine ⟨rfl, rfl, rfl, ?_⟩
  decide

/-- C6 (amended): calling `start_motor` on a protocol whose normalized
rotation and agitation phase durations are both 0 emits the "0 duration"
error toast, leaves `is_running`, the sent-command list and the timers
untouched, and sends no command — but it is not a no-op on session state:
the stored protocol becomes the normalized protocol with
`global_duration_ms` zeroed. -/
theorem start_motor_zero_duration_behavior (m : Motor) (now : Nat)
    (h1 : (normalizeProtocol m.protocol).rotation_duration_ms = 0)
    (h2 : (normalizeProtocol m.protocol).agitation_duration_ms = 0) :
    m.start_motor now =
      { m with
        protocol := { normalizeProtocol m.protocol with global_duration_ms := 0 },
        messages := m.messages ++
          [{ kind := .Error,
             message := "The duration of the protocol is 0. Please check the durations.",
             error := some "0 duration", origin := some m.name, duration := 3,
             is_waiting := false }] } := by
  unfold Motor.start_motor
  rw [if_pos (show (normalizeProtocol m.protocol).get_duration_without_pause = 0 by
    unfold Protocol.get_duration_without_pause; omega)]

/-- Witness for C6 at a concrete session. -/
theorem start_motor_zero_duration_witness :
    zeroDurMotor.start_motor 3 =
      { zeroDurMotor with
        protocol := { normalizeProtocol zeroDurMotor.protocol with
          global_duration_ms := 0 },
        messages := zeroDurMotor.messages ++
          [{ kind := .Error,
             message := "The duration of the protocol is 0. Please check the durations.",
             error := some "0 duration", origin := some zeroDurMotor.name,
             duration := 3, is_waiting := false }] } :=
  start_motor_zero_duration_behavior zeroDurMotor 3 (by decide) (by decide)

/-- Counterexample to C6 as stated: at `zeroDurMotor` the precondition holds
(both normalized phase durations are 0) yet `start_motor` is not a no-op on
session state — the stored protocol changes (its `rotation_duration_ms` is
forced from 5 to 0 and its `global_duration_ms` from 7 to 0). -/
theorem start_motor_zero_duration_not_noop :
    (normalizeProtocol zeroDurMotor.protocol).rotation_duration_ms = 0 ∧
    (normalizeProtocol zeroDurMotor.protocol).agitation_duration_ms = 0 ∧
    zeroDurMotor.protocol.rotation_duration_ms = 5 ∧
    zeroDurMotor.protocol.global_duration_ms = 7 ∧
    (zeroDurMotor.start_motor 3).protocol ≠ zeroDurMotor.protocol := by
  refine ⟨rfl, rfl, rfl, rfl, ?_⟩
  decide

/-- C7: the normalization `start_motor` applies establishes, for each axis:
a zero `cycle duration + pause-before-reverse` forces that axis's phase
duration to 0, a zero (post-normalization) phase duration forces the
adjacent pause (pause-pre-agitation for rotation, pause-post-agitation for
agitation) to 0, and every other protocol field — both axis records, the
global duration, and any phase duration or pause not forced to 0 — is left
unchanged. -/
theorem normalization_invariant (p : Protocol) :
    (p.rotation.get_min_duration = 0 →
      (normalizeProtocol p).rotation_duration_ms = 0) ∧
    (p.agitation.get_min_duration = 0 →
      (normalizeProtocol p).agitation_duration_ms = 0) ∧
    ((normalizeProtocol p).rotation_duration_ms = 0 →
      (normalizeProtocol p).pause_before_agitation_ms = 0) ∧
    ((normalizeProtocol p).agitation_duration_ms = 0 →
      (normalizeProtocol p).pause_after_agitation_ms = 0) ∧
    (normalizeProtocol p).rotation = p.rotation ∧
    (normalizeProtocol p).agitation = p.agitation ∧
    (normalizeProtocol p).global_duration_ms = p.global_duration_ms ∧
    ((normalizeProtocol p).rotation_duration_ms ≠ 0 →
      (normalizeProtocol p).rotation_duration_ms = p.rotation_duration_ms) ∧
    ((normalizeProtocol p).agitation_duration_ms ≠ 0 →
      (normalizeProtocol p).agitation_duration_ms = p.agitation_duration_ms) ∧
    ((normalizeProtocol p).pause_before_agitation_ms ≠ 0 →
      (normalizeProtocol p).pause_before_agitation_ms = p.pause_before_agitation_ms) ∧
    ((normalizeProtocol p).pause_after_agitation_ms ≠ 0 →
      (normalizeProtocol p).pause_after_agitation_ms = p.pause_after_agitation_ms) := by
  by_cases h1 : p.rotation.get_min_duration = 0 <;>
  by_cases h2 : p.agitation.get_min_duration = 0 <;>
  by_cases h3 : p.rotation_duration_ms = 0 <;>
  by_cases h4 : p.agitation_duration_ms = 0 <;>
    simp [normalizeProtocol, h1, h2, h3, h4]

/-- C8: the listener of serial.rs, on an oscillation-flip code (`osr` =
bytes 111 115 114, `osa` = 111 115 97), sets the sub-phase to the
oscillation marker and its start time to the current instant but reverses
no stored direction — the whole post-state differs from the pre-state only
in `phase` and `phase_start_time`, and both direction fields are exactly
what they were (contrary to the claim that the axis's direction is
reversed). -/
theorem oscillation_flip_direction_unchanged :
    StepperState.from_bytes 111 115 114 = .OscillationRotation ∧
    listenStep oscMotor 7 111 115 114 =
      { oscMotor with timers_and_phases :=
          { oscMotor.timers_and_phases with
            phase := .OscillationRotation, phase_start_time := some 7 } } ∧
    (listenStep oscMotor 7 111 115 114).timers_and_phases.rotation_direction =
      oscMotor.timers_and_phases.rotation_direction ∧
    oscMotor.timers_and_phases.rotation_direction = .Forward ∧
    (listenStep oscMotor 7 111 115 114).timers_and_phases.rotation_direction ≠
      .Backward ∧
    StepperState.from_bytes 111 115 97 = .OscillationAgitation ∧
    (listenStep oscMotor 8 111 115 97).timers_and_phases.agitation_direction =
      oscMotor.timers_and_phases.agitation_direction := by
  refine ⟨rfl, ?_, rfl, rfl, ?_, rfl, rfl⟩ <;> decide

/-- C9 (amended): the number of points the generation loop stores never
exceeds `MAX_POINTS_GRAPHS + 1`: the loop stops appending only once the
count already exceeds `MAX_POINTS_GRAPHS` (the guard is
`len > MAX_POINTS_GRAPHS`), so it can overshoot the ceiling by exactly one
point but no more, for every step-delay sequence, multiplier and
threshold. -/
theorem graph_points_bounded_by_limit_plus_one (mult th : Nat)
    (delays : List Nat) :
    (graphRun mult th delays).points.length ≤ MAX_POINTS_GRAPHS + 1 := by
  unfold graphRun
  exact graphFold_length_le mult th delays _ (by simp)

/-- Counterexample to C9 as stated: a run over `MAX_POINTS_GRAPHS + 1`
constant delays (threshold 0, full-step multiplier 1) appends on every
iteration until the guard trips, storing `MAX_POINTS_GRAPHS + 1 = 250001`
points — strictly more than `MAX_POINTS_GRAPHS`. -/
theorem graph_points_exceed_limit :
    MAX_POINTS_GRAPHS <
      (graphRun 1 0 (List.replicate (MAX_POINTS_GRAPHS + 1) 0)).points.length := by
  unfold graphRun
  rw [graphFold_replicate_zero (MAX_POINTS_GRAPHS + 1)
    { points := [], last_rpm := 0, delay_acc_us := 0, acc_us_for_points := 0 }
    (by simp)]
  simp

/-- C10: every call to `stop_motor`, from any session state, appends exactly
the four ASCII bytes of `"stop"` to the serial output, stores
`is_running = false`, records the global stopped-elapsed time, resets both
the main phase and the sub phase to the default `Finished` state, clears
both phase start timers, and leaves the protocol, name, global start time
and stored directions unchanged. -/
theorem stop_motor_spec (m : Motor) (now : Nat) :
    (m.stop_motor now).sent = m.sent ++ [stopCommand] ∧
    stopCommand = [115, 116, 111, 112] ∧
    stopCommand = "stop".toList.map Char.toNat ∧
    (m.stop_motor now).is_running = false ∧
    (m.stop_motor now).timers_and_phases.stop_time_ms =
      some (m.timers_and_phases.get_elapsed_time_since_motor_start_as_millis now) ∧
    (m.stop_motor now).timers_and_phases.phase = .Finished ∧
    (m.stop_motor now).timers_and_phases.global_phase = .Finished ∧
    (m.stop_motor now).timers_and_phases.phase_start_time = none ∧
    (m.stop_motor now).timers_and_phases.global_phase_start_time = none ∧
    (m.stop_motor now).protocol = m.protocol ∧
    (m.stop_motor now).name = m.name ∧
    (m.stop_motor now).timers_and_phases.start_time =
      m.timers_and_phases.start_time ∧
    (m.stop_motor now).timers_and_phases.rotation_direction =
      m.timers_and_phases.rotation_direction ∧
    (m.stop_motor now).timers_and_phases.agitation_direction =
      m.timers_and_phases.agitation_direction ∧
    (m.stop_motor now).messages = m.messages ++
      [{ kind := .Info, message := m.name ++ " has been stopped.",
         error := none, origin := none, duration := 3, is_waiting := false }] :=
  ⟨rfl, rfl, by decide, rfl, rfl, rfl, rfl, rfl, rfl, rfl, rfl, rfl, rfl, rfl, rfl⟩
